import Mathlib

/-!
Shallow embedding of `src/libdnf/rpm/rpm_signature.cpp` (namespace `libdnf::rpm`):
signature classification (`RpmSignature::check_package_signature`), trusted-key lookup
(`RpmSignature::rpmdb_lookup`, `RpmSignature::key_present`), key import
(`RpmSignature::import_key`), and key-material construction (`KeyInfo::KeyInfo`,
`KeyInfo::get_short_key_id`).

Strings are embedded as `List Char`; C++ `starts_with` is `List.isPrefixOf`,
`ends_with` is `List.isSuffixOf`, and `std::string::find(pat) != npos` is the
substring scan `containsSub`.  External collaborators (the rpm verification engine,
the downloader, the file system, the key-info extractor, the rpmdb) are opaque
oracles supplied as explicit parameters, since the source treats them as opaque
calls whose results it merely branches on.  Resource effects that the claims talk
about (temp-file creation/deletion, engine calls, the global rpm log mask) are
made observable as explicit event traces and threaded state.
-/

namespace LibdnfRpm

/-- C++ `std::string::find(pat) != std::string::npos`: `pat` occurs as a
contiguous substring of the line. -/
def containsSub (pat : List Char) : List Char → Bool
  | [] => pat.isPrefixOf ([] : List Char)
  | c :: rest => pat.isPrefixOf (c :: rest) || containsSub pat rest

/-- The literal `": BAD"` searched for at rpm_signature.cpp line 152. -/
def sBAD : List Char := ": BAD".toList

/-- The literal `": OK"` tested at line 161. -/
def sOK : List Char := ": OK".toList

/-- The literal `": NOKEY"` tested at line 155. -/
def sNOKEY : List Char := ": NOKEY".toList

/-- The literal `": NOTTRUSTED"` tested at line 157. -/
def sNOTTRUSTED : List Char := ": NOTTRUSTED".toList

/-- The literal `": NOTFOUND"` tested at line 159. -/
def sNOTFOUND : List Char := ": NOTFOUND".toList

/-- `enum class CheckResult` of `RpmSignature` (rpm_signature.hpp). -/
inductive CheckResult
  | OK
  | FAILED
  | FAILED_KEY_MISSING
  | FAILED_NOT_TRUSTED
  | FAILED_NOT_SIGNED
deriving DecidableEq, Repr

/-- rpm return codes (`rpmRC`); the code only distinguishes `RPMRC_OK` from the rest. -/
inductive RpmRc
  | RPMRC_OK
  | RPMRC_NOTFOUND
  | RPMRC_FAIL
  | RPMRC_NOTTRUSTED
  | RPMRC_NOKEY
deriving DecidableEq, Repr

/-- `libdnf::repo::Repo::Type`; the gate at lines 96-105 only tests `COMMANDLINE`. -/
inductive RepoType
  | AVAILABLE
  | SYSTEM
  | COMMANDLINE
deriving DecidableEq, Repr

/-- Per-repository configuration consulted at line 102. -/
structure RepoConfig where
  gpgcheck : Bool
deriving DecidableEq, Repr

/-- The package's repository: its type and its configuration. -/
structure Repo where
  rtype : RepoType
  config : RepoConfig
deriving DecidableEq, Repr

/-- Main configuration consulted at lines 86 and 97. -/
structure ConfigMain where
  localpkg_gpgcheck : Bool
  installroot : List Char
deriving DecidableEq, Repr

/-- An rpm package as seen by `check_package_signature`: its repo and file path. -/
structure Package where
  repo : Repo
  package_path : List Char
deriving DecidableEq, Repr

/-- The error taxonomy thrown by rpm_signature.cpp.  `KeyImportError` carries the
string interpolated into its message (`key_url` at lines 73 and 203);
`SignatureCheckError` carries the root dir (line 88).  Download and file-open
failures propagate from the collaborators (lines 56 and 63). -/
inductive DnfError
  | KeyImportError (ref : List Char)
  | SignatureCheckError (root : List Char)
  | DownloadError (url : List Char)
  | FileOpenError (path : List Char)
deriving DecidableEq, Repr

/-- The loop of lines 144-172: scan the captured log lines in order, carrying the
three flags `missing_key`, `not_trusted`, `not_signed`, with the early returns of
lines 153 and 162 and the final precedence of lines 165-172. -/
def classify_loop (path : List Char) :
    List (List Char) → Bool → Bool → Bool → CheckResult
  | [], missing_key, not_trusted, not_signed =>
    if not_trusted then CheckResult.FAILED_NOT_TRUSTED
    else if missing_key then CheckResult.FAILED_KEY_MISSING
    else if not_signed then CheckResult.FAILED_NOT_SIGNED
    else CheckResult.FAILED
  | line :: rest, missing_key, not_trusted, not_signed =>
    if path.isPrefixOf line then
      classify_loop path rest missing_key not_trusted not_signed
    else if containsSub sBAD line then
      CheckResult.FAILED
    else if sNOKEY.isSuffixOf line then
      classify_loop path rest true not_trusted not_signed
    else if sNOTTRUSTED.isSuffixOf line then
      classify_loop path rest missing_key true not_signed
    else if sNOTFOUND.isSuffixOf line then
      classify_loop path rest missing_key not_trusted true
    else if !(sOK.isSuffixOf line) then
      CheckResult.FAILED
    else
      classify_loop path rest missing_key not_trusted not_signed

/-- Oracle for the rpm engine during one `check_package_signature` call:
whether `rpmtsSetRootDir` succeeds (line 87), the return code of
`rpmcliVerifySignatures` (line 124), and the log lines the `RpmLogGuardStrings`
guard captures during that call (line 147). -/
structure RpmEnv where
  set_root_dir_ok : Bool
  verify_rc : RpmRc
  verify_logs : List (List Char)

/-- Observable engine calls made by `check_package_signature`. -/
inductive RpmEvent
  | create_transaction
  | set_vfy_level
  | verify (path : List Char)
deriving DecidableEq, Repr

/-- `rpmlogSetMask` (lines 119 and 126): sets the process-wide log mask and
returns the previous one, modelled as explicit state passing on the mask. -/
def rpmlogSetMask (newMask : Nat) (cur : Nat) : Nat × Nat := (cur, newMask)

/-- `RPMLOG_UPTO(RPMLOG_PRI(RPMLOG_INFO))`: the elevated mask of line 119
(RPMLOG_INFO = 6, so the mask is (1 <<< 7) - 1). -/
def RPMLOG_INFO_UPTO : Nat := 127

/-- `RpmSignature::create_transaction` (lines 83-91): `rpmtsCreate` plus
`rpmtsSetRootDir`; throws `SignatureCheckError` if the root cannot be set. -/
def create_transaction (installroot : List Char) (set_root_dir_ok : Bool) :
    Except DnfError Unit :=
  if set_root_dir_ok then Except.ok ()
  else Except.error (DnfError.SignatureCheckError installroot)

/-- Outcome of one `check_package_signature` call: the returned value or thrown
error, the final global log mask, and the engine calls made. -/
structure CheckOutcome where
  result : Except DnfError CheckResult
  log_mask : Nat
  events : List RpmEvent

/-- Lines 107-172 of `check_package_signature`, reached once the gpgcheck gate has
passed: create the transaction (line 118; on error the mask was never elevated),
save the old mask and elevate to INFO (line 119), run verification (lines 121-124),
restore the saved mask (line 126), then return `OK` on engine success (lines
128-130) or classify the captured log (lines 144-172). -/
def check_required (cfg : ConfigMain) (env : RpmEnv) (pkg : Package) (mask0 : Nat) :
    CheckOutcome :=
  match create_transaction cfg.installroot env.set_root_dir_ok with
  | Except.error e =>
    { result := Except.error e, log_mask := mask0,
      events := [RpmEvent.create_transaction] }
  | Except.ok _ =>
    let s1 := rpmlogSetMask RPMLOG_INFO_UPTO mask0
    let oldmask := s1.1
    let path := pkg.package_path
    let rc := env.verify_rc
    let s2 := rpmlogSetMask oldmask s1.2
    if rc = RpmRc.RPMRC_OK then
      { result := Except.ok CheckResult.OK, log_mask := s2.2,
        events := [RpmEvent.create_transaction, RpmEvent.set_vfy_level,
                   RpmEvent.verify path] }
    else
      { result := Except.ok (classify_loop path env.verify_logs false false false),
        log_mask := s2.2,
        events := [RpmEvent.create_transaction, RpmEvent.set_vfy_level,
                   RpmEvent.verify path] }

/-- `RpmSignature::check_package_signature` (lines 93-173).  The gate of lines
94-105: a command-line package short-circuits to `OK` when `localpkg_gpgcheck`
is off, any other package when its repo's `gpgcheck` is off; otherwise
verification proceeds (`check_required`). -/
def check_package_signature (cfg : ConfigMain) (env : RpmEnv) (pkg : Package)
    (mask0 : Nat) : CheckOutcome :=
  if pkg.repo.rtype = RepoType.COMMANDLINE then
    if !cfg.localpkg_gpgcheck then
      { result := Except.ok CheckResult.OK, log_mask := mask0, events := [] }
    else
      check_required cfg env pkg mask0
  else
    if !pkg.repo.config.gpgcheck then
      { result := Except.ok CheckResult.OK, log_mask := mask0, events := [] }
    else
      check_required cfg env pkg mask0

/-- The gate condition of lines 94-105 as a single boolean: gpg checking is
required exactly when the applicable flag is on. -/
def gpgcheck_required (cfg : ConfigMain) (pkg : Package) : Bool :=
  if pkg.repo.rtype = RepoType.COMMANDLINE then cfg.localpkg_gpgcheck
  else pkg.repo.config.gpgcheck

/-! ## KeyInfo: key resolution, parsing, construction (lines 46-81) -/

/-- One entry of `repo::RepoGpgme::rawkey2infos` (line 64): the extractor's
identity triple. -/
structure RawKeyInfo where
  id : List Char
  user_id : List Char
  fingerprint : List Char
deriving DecidableEq, Repr

/-- `pgpArmor` as returned by `pgpReadPkts` (line 71); the code only tests
equality with `PGPARMOR_PUBKEY`. -/
inductive PgpArmor
  | PGPARMOR_ERR_CORRUPT
  | PGPARMOR_NONE
  | PGPARMOR_PUBKEY
  | PGPARMOR_SIGNATURE
deriving DecidableEq, Repr

/-- Oracle for the collaborators of the `KeyInfo` constructor: whether
`utils::url::is_url` holds of the reference (line 48), the unique path the
`TempFile` would get (line 53), whether the download succeeds (line 56),
whether opening the resolved file succeeds (line 63), the extractor's triples
(line 64), and the `pgpReadPkts` classification with the packet bytes it
produces (line 71). -/
structure KeyEnv where
  is_url : Bool
  temp_path : List Char
  download_ok : Bool
  file_open_ok : Bool
  rawkey_infos : List RawKeyInfo
  pgp_armor : PgpArmor
  pgp_pkt : List Nat

/-- Observable resource events of the `KeyInfo` constructor and destructor. -/
inductive KEvent
  | temp_create (path : List Char)
  | download (url : List Char)
  | file_open (path : List Char)
  | temp_delete (path : List Char)
deriving DecidableEq, Repr

/-- The constructed `KeyInfo` object: members of the class as assigned by the
constructor (lines 46-76).  Note the object holds no temp-file member: the
`downloaded_key` unique_ptr of line 47 is a local of the constructor. -/
structure KeyInfo where
  key_url : List Char
  key_path : List Char
  key_id : List Char
  user_id : List Char
  fingerprint : List Char
  pkt : List Nat
  pkt_len : Nat
deriving DecidableEq, Repr

/-- The literal `"file://"` tested at line 49. -/
def sFileScheme : List Char := "file://".toList

/-- Emit the scope-exit effect of the constructor-local `downloaded_key`
unique_ptr (line 47): when a temp file was created, its `TempFile` destructor
removes it as control leaves the constructor, on success and on unwinding alike. -/
def scope_exit (has_temp : Bool) (temp_path : List Char) (evs : List KEvent) :
    List KEvent :=
  if has_temp then evs ++ [KEvent.temp_delete temp_path] else evs

/-- The loop of lines 64-68: each extractor triple overwrites `key_id`,
`user_id`, `fingerprint`, so the last triple wins; with no triple the members
keep their default-constructed empty strings. -/
def fold_ids (infos : List RawKeyInfo) : List Char × List Char × List Char :=
  infos.foldl (fun _ info => (info.id, info.user_id, info.fingerprint)) ([], [], [])

/-- Lines 63-76 of the `KeyInfo` constructor, after the reference has been
resolved to `key_path`: open the file (line 63), fold the extractor's triples so
the last one wins with empty-string defaults (lines 64-68), read the packet and
fail with `KeyImportError` carrying the original `key_url` unless it is an
armored public key (lines 70-74), else store the packet (line 75).  Every exit
passes through `scope_exit`, the destruction of the constructor-local temp file. -/
def read_key_phase (envk : KeyEnv) (key_url key_path : List Char) (has_temp : Bool)
    (tpath : List Char) (evs0 : List KEvent) : Except DnfError KeyInfo × List KEvent :=
  if !envk.file_open_ok then
    (Except.error (DnfError.FileOpenError key_path),
     scope_exit has_temp tpath (evs0 ++ [KEvent.file_open key_path]))
  else
    let ids := fold_ids envk.rawkey_infos
    if envk.pgp_armor ≠ PgpArmor.PGPARMOR_PUBKEY then
      (Except.error (DnfError.KeyImportError key_url),
       scope_exit has_temp tpath (evs0 ++ [KEvent.file_open key_path]))
    else
      (Except.ok
        { key_url := key_url, key_path := key_path,
          key_id := ids.1, user_id := ids.2.1, fingerprint := ids.2.2,
          pkt := envk.pgp_pkt, pkt_len := envk.pgp_pkt.length },
       scope_exit has_temp tpath (evs0 ++ [KEvent.file_open key_path]))

/-- `KeyInfo::KeyInfo` (lines 46-76).  Resolution (lines 47-61): a `file://`
reference strips the scheme; any other URL creates a temp file and downloads
into it (a failing download propagates, and the unwinding destroys the temp
file); a non-URL reference is used as a path directly.  Then `read_key_phase`. -/
def mkKeyInfo (envk : KeyEnv) (key_url : List Char) :
    Except DnfError KeyInfo × List KEvent :=
  if envk.is_url then
    if sFileScheme.isPrefixOf key_url then
      read_key_phase envk key_url (key_url.drop 7) false envk.temp_path []
    else
      if envk.download_ok then
        read_key_phase envk key_url envk.temp_path true envk.temp_path
          [KEvent.temp_create envk.temp_path, KEvent.download key_url]
      else
        (Except.error (DnfError.DownloadError key_url),
         [KEvent.temp_create envk.temp_path, KEvent.download key_url,
          KEvent.temp_delete envk.temp_path])
  else
    read_key_phase envk key_url key_url false envk.temp_path []

/-- `KeyInfo::~KeyInfo`: the object owns `pkt_ptr` (freed by `pkt_deleter`) but
no temp file — `downloaded_key` of line 47 never escapes the constructor — so
destruction performs no temp-file deletion. -/
def destroyKeyInfo (_k : KeyInfo) : List KEvent := []

/-- `KeyInfo::get_short_key_id` (lines 78-81): the last 8 characters of
`key_id`, or all of it when not longer than 8. -/
def get_short_key_id (k : KeyInfo) : List Char :=
  if k.key_id.length > 8 then k.key_id.drop (k.key_id.length - 8) else k.key_id

/-! ## rpmdb lookup, key_present, import_key (lines 175-208) -/

/-- One rpmdb header as the lookup sees it: its `RPMDBI_NAME` and the
`RPMTAG_VERSION` string. -/
structure RpmHeader where
  name : List Char
  version : List Char
deriving DecidableEq, Repr

/-- The literal `"gpg-pubkey"` used as the iterator key at line 179. -/
def sGpgPubkey : List Char := "gpg-pubkey".toList

/-- `rpmtsInitIterator(ts, RPMDBI_NAME, "gpg-pubkey", 0)` (line 179): the
iterator yields exactly the headers whose name is `gpg-pubkey`, in database
order. -/
def rpmts_init_iterator (db : List RpmHeader) : List RpmHeader :=
  db.filter (fun h => h.name == sGpgPubkey)

/-- The `while (rpmdbNextIterator ...)` loop of lines 181-186: stop with true at
the first header whose version equals the short key id, false when exhausted. -/
def lookup_loop (key_id : List Char) : List RpmHeader → Bool
  | [] => false
  | h :: rest => if h.version == key_id then true else lookup_loop key_id rest

/-- `RpmSignature::rpmdb_lookup` (lines 175-189): iterate the `gpg-pubkey`
headers comparing `RPMTAG_VERSION` against `key.get_short_key_id()`. -/
def rpmdb_lookup (db : List RpmHeader) (key : KeyInfo) : Bool :=
  lookup_loop (get_short_key_id key) (rpmts_init_iterator db)

/-- `RpmSignature::key_present` (lines 191-195): build a fresh transaction (which
can throw `SignatureCheckError`) and run `rpmdb_lookup`; the db is read, never
written. -/
def key_present (cfg : ConfigMain) (set_root_dir_ok : Bool) (db : List RpmHeader)
    (key : KeyInfo) : Except DnfError Bool :=
  match create_transaction cfg.installroot set_root_dir_ok with
  | Except.error e => Except.error e
  | Except.ok _ => Except.ok (rpmdb_lookup db key)

/-- Outcome of `import_key`: the returned value or thrown error, plus the list of
`rpmtsImportPubkey` calls made, each recorded with the packet bytes and length
passed (line 202). -/
structure ImportOutcome where
  result : Except DnfError Bool
  import_calls : List (List Nat × Nat)

/-- `RpmSignature::import_key` (lines 197-208): fresh transaction, then if
`rpmdb_lookup` is false call `rpmtsImportPubkey` once with `key.get_pkt()` and
`key.get_pkt_len()`; a non-OK engine code throws `KeyImportError` carrying
`key.get_url()`; on engine success return true.  If the key was found, return
false with no engine import call. -/
def import_key (cfg : ConfigMain) (set_root_dir_ok : Bool) (import_ok : Bool)
    (db : List RpmHeader) (key : KeyInfo) : ImportOutcome :=
  match create_transaction cfg.installroot set_root_dir_ok with
  | Except.error e => { result := Except.error e, import_calls := [] }
  | Except.ok _ =>
    if !(rpmdb_lookup db key) then
      if import_ok then
        { result := Except.ok true, import_calls := [(key.pkt, key.pkt_len)] }
      else
        { result := Except.error (DnfError.KeyImportError key.key_url),
          import_calls := [(key.pkt, key.pkt_len)] }
    else
      { result := Except.ok false, import_calls := [] }

/-! ## Helper lemmas -/

/-- Did any captured line that is not a package-path header end with `": NOKEY"`? -/
def flag_nokey (path : List Char) (logs : List (List Char)) : Bool :=
  logs.any (fun line => !(path.isPrefixOf line) && sNOKEY.isSuffixOf line)

/-- Did any captured line that is not a package-path header end with `": NOTTRUSTED"`? -/
def flag_nottrusted (path : List Char) (logs : List (List Char)) : Bool :=
  logs.any (fun line => !(path.isPrefixOf line) && sNOTTRUSTED.isSuffixOf line)

/-- Did any captured line that is not a package-path header end with `": NOTFOUND"`? -/
def flag_notfound (path : List Char) (logs : List (List Char)) : Bool :=
  logs.any (fun line => !(path.isPrefixOf line) && sNOTFOUND.isSuffixOf line)

lemma isSuffixOf_antichain {s a b : List Char} (hab : a.isSuffixOf b = false)
    (hba : b.isSuffixOf a = false) (ha : a.isSuffixOf s = true) :
    b.isSuffixOf s = false := by
  cases hb : b.isSuffixOf s
  · rfl
  · exfalso
    rw [List.isSuffixOf_iff_suffix] at ha hb
    rcases List.suffix_or_suffix_of_suffix ha hb with h | h
    · rw [← List.isSuffixOf_iff_suffix] at h
      rw [h] at hab
      cases hab
    · rw [← List.isSuffixOf_iff_suffix] at h
      rw [h] at hba
      cases hba

lemma nokey_not_nottrusted {s : List Char} (h : sNOKEY.isSuffixOf s = true) :
    sNOTTRUSTED.isSuffixOf s = false :=
  isSuffixOf_antichain (by decide) (by decide) h

lemma nokey_not_notfound {s : List Char} (h : sNOKEY.isSuffixOf s = true) :
    sNOTFOUND.isSuffixOf s = false :=
  isSuffixOf_antichain (by decide) (by decide) h

lemma nottrusted_not_notfound {s : List Char} (h : sNOTTRUSTED.isSuffixOf s = true) :
    sNOTFOUND.isSuffixOf s = false :=
  isSuffixOf_antichain (by decide) (by decide) h

lemma classify_loop_of_bad (path : List Char) :
    ∀ (l : List (List Char)) (mk nt ns : Bool),
      (∃ line ∈ l, path.isPrefixOf line = false ∧ containsSub sBAD line = true) →
      classify_loop path l mk nt ns = CheckResult.FAILED := by
  intro l
  induction l with
  | nil =>
    intro mk nt ns h
    simp at h
  | cons line rest ih =>
    intro mk nt ns h
    rcases h with ⟨w, hw, hwnh, hwbad⟩
    rcases List.mem_cons.mp hw with rfl | hwrest
    · simp [classify_loop, hwnh, hwbad]
    · have hrec : ∀ mk nt ns : Bool,
          classify_loop path rest mk nt ns = CheckResult.FAILED :=
        fun mk nt ns => ih mk nt ns ⟨w, hwrest, hwnh, hwbad⟩
      simp only [classify_loop]
      split_ifs <;> first | rfl | exact hrec _ _ _

lemma classify_loop_of_unrecognized (path : List Char) :
    ∀ (l : List (List Char)) (mk nt ns : Bool),
      (∃ line ∈ l, path.isPrefixOf line = false ∧
        sNOKEY.isSuffixOf line = false ∧ sNOTTRUSTED.isSuffixOf line = false ∧
        sNOTFOUND.isSuffixOf line = false ∧ sOK.isSuffixOf line = false) →
      classify_loop path l mk nt ns = CheckResult.FAILED := by
  intro l
  induction l with
  | nil =>
    intro mk nt ns h
    simp at h
  | cons line rest ih =>
    intro mk nt ns h
    rcases h with ⟨w, hw, hwnh, h1, h2, h3, h4⟩
    rcases List.mem_cons.mp hw with rfl | hwrest
    · simp [classify_loop, hwnh, h1, h2, h3, h4]
    · have hrec : ∀ mk nt ns : Bool,
          classify_loop path rest mk nt ns = CheckResult.FAILED :=
        fun mk nt ns => ih mk nt ns ⟨w, hwrest, hwnh, h1, h2, h3, h4⟩
      simp only [classify_loop]
      split_ifs <;> first | rfl | exact hrec _ _ _

lemma classify_loop_recognized (path : List Char) :
    ∀ (l : List (List Char)) (mk nt ns : Bool),
      (∀ line ∈ l, path.isPrefixOf line = false → containsSub sBAD line = false) →
      (∀ line ∈ l, path.isPrefixOf line = false →
        (sNOKEY.isSuffixOf line || sNOTTRUSTED.isSuffixOf line ||
         sNOTFOUND.isSuffixOf line || sOK.isSuffixOf line) = true) →
      classify_loop path l mk nt ns =
        (if nt || flag_nottrusted path l then CheckResult.FAILED_NOT_TRUSTED
         else if mk || flag_nokey path l then CheckResult.FAILED_KEY_MISSING
         else if ns || flag_notfound path l then CheckResult.FAILED_NOT_SIGNED
         else CheckResult.FAILED) := by
  intro l
  induction l with
  | nil =>
    intro mk nt ns _ _
    simp [classify_loop, flag_nokey, flag_nottrusted, flag_notfound]
  | cons line rest ih =>
    intro mk nt ns hbad hsuf
    have hbad' : ∀ x ∈ rest, path.isPrefixOf x = false → containsSub sBAD x = false :=
      fun x hx => hbad x (List.mem_cons_of_mem _ hx)
    have hsuf' : ∀ x ∈ rest, path.isPrefixOf x = false →
        (sNOKEY.isSuffixOf x || sNOTTRUSTED.isSuffixOf x ||
         sNOTFOUND.isSuffixOf x || sOK.isSuffixOf x) = true :=
      fun x hx => hsuf x (List.mem_cons_of_mem _ hx)
    by_cases hhead : path.isPrefixOf line = true
    · simp only [classify_loop, hhead, if_true,
        flag_nokey, flag_nottrusted, flag_notfound, List.any_cons, hhead,
        Bool.not_true, Bool.false_and, Bool.false_or]
      exact ih mk nt ns hbad' hsuf'
    · have hhead' : path.isPrefixOf line = false := by
        cases hx : path.isPrefixOf line
        · rfl
        · exact absurd hx hhead
      have hb := hbad line (List.mem_cons_self _ _) hhead'
      have h4 := hsuf line (List.mem_cons_self _ _) hhead'
      cases h1 : sNOKEY.isSuffixOf line with
      | true =>
        have hNT := nokey_not_nottrusted h1
        have hNF := nokey_not_notfound h1
        simp only [classify_loop, hhead', hb, h1,
          Bool.false_eq_true, if_false, if_true]
        rw [ih true nt ns hbad' hsuf']
        simp [flag_nokey, flag_nottrusted, flag_notfound, List.any_cons,
          hhead', h1, hNT, hNF]
      | false =>
        cases h2 : sNOTTRUSTED.isSuffixOf line with
        | true =>
          have hNF := nottrusted_not_notfound h2
          simp only [classify_loop, hhead', hb, h1, h2,
            Bool.false_eq_true, if_false, if_true]
          rw [ih mk true ns hbad' hsuf']
          simp [flag_nokey, flag_nottrusted, flag_notfound, List.any_cons,
            hhead', h1, h2, hNF]
        | false =>
          cases h3 : sNOTFOUND.isSuffixOf line with
          | true =>
            simp only [classify_loop, hhead', hb, h1, h2, h3,
              Bool.false_eq_true, if_false, if_true]
            rw [ih mk nt true hbad' hsuf']
            simp [flag_nokey, flag_nottrusted, flag_notfound, List.any_cons,
              hhead', h1, h2, h3]
          | false =>
            have hOK : sOK.isSuffixOf line = true := by
              rw [h1, h2, h3] at h4
              simpa using h4
            simp only [classify_loop, hhead', hb, h1, h2, h3, hOK,
              Bool.false_eq_true, if_false, if_true, Bool.not_true]
            rw [ih mk nt ns hbad' hsuf']
            simp [flag_nokey, flag_nottrusted, flag_notfound, List.any_cons,
              hhead', h1, h2, h3]

lemma check_package_signature_of_required (cfg : ConfigMain) (env : RpmEnv)
    (pkg : Package) (mask0 : Nat) (hreq : gpgcheck_required cfg pkg = true) :
    check_package_signature cfg env pkg mask0 = check_required cfg env pkg mask0 := by
  unfold check_package_signature
  unfold gpgcheck_required at hreq
  by_cases h : pkg.repo.rtype = RepoType.COMMANDLINE
  · rw [if_pos h] at hreq
    simp [h, hreq]
  · rw [if_neg h] at hreq
    simp [h, hreq]

lemma check_required_result_classify (cfg : ConfigMain) (env : RpmEnv) (pkg : Package)
    (mask0 : Nat) (hts : env.set_root_dir_ok = true)
    (hrc : env.verify_rc ≠ RpmRc.RPMRC_OK) :
    (check_required cfg env pkg mask0).result =
      Except.ok (classify_loop pkg.package_path env.verify_logs false false false) := by
  unfold check_required create_transaction
  simp [hts, hrc]

lemma check_required_mask (cfg : ConfigMain) (env : RpmEnv) (pkg : Package)
    (mask0 : Nat) : (check_required cfg env pkg mask0).log_mask = mask0 := by
  unfold check_required create_transaction rpmlogSetMask
  by_cases h : env.set_root_dir_ok = true
  · by_cases h2 : env.verify_rc = RpmRc.RPMRC_OK <;> simp [h, h2]
  · simp [h]

/-! ## Claim theorems and witnesses -/

/-- C1: for every captured log sequence and package path, when the engine reports
non-success and some log line that does not begin with the package's path contains
the substring `": BAD"`, `check_package_signature` returns `FAILED`, regardless of
any `NOKEY`/`NOTTRUSTED`/`NOTFOUND` findings in other lines (line 152 returns
before any flag can matter; the only other early returns are also `FAILED`). -/
theorem claim_C1_bad_overrides (cfg : ConfigMain) (env : RpmEnv) (pkg : Package)
    (mask0 : Nat) (hreq : gpgcheck_required cfg pkg = true)
    (hts : env.set_root_dir_ok = true) (hrc : env.verify_rc ≠ RpmRc.RPMRC_OK)
    (hbad : ∃ line ∈ env.verify_logs,
      pkg.package_path.isPrefixOf line = false ∧ containsSub sBAD line = true) :
    (check_package_signature cfg env pkg mask0).result =
      Except.ok CheckResult.FAILED := by
  rw [check_package_signature_of_required cfg env pkg mask0 hreq,
    check_required_result_classify cfg env pkg mask0 hts hrc,
    classify_loop_of_bad pkg.package_path env.verify_logs false false false hbad]

/-- Shared concrete configuration: gpg checking enabled everywhere. -/
def cfgW : ConfigMain := { localpkg_gpgcheck := true, installroot := "/".toList }

/-- Shared concrete repository-sourced package with `gpgcheck` on. -/
def pkgW : Package :=
  { repo := { rtype := RepoType.AVAILABLE, config := { gpgcheck := true } },
    package_path := "/p.rpm".toList }

/-- Engine run for the C1 witness: failure code, one header line, one `BAD` line,
one `NOKEY` line. -/
def envW1 : RpmEnv :=
  { set_root_dir_ok := true, verify_rc := RpmRc.RPMRC_FAIL,
    verify_logs := ["/p.rpm:".toList, "sig: BAD".toList, "hdr: NOKEY".toList] }

theorem claim_C1_witness :
    gpgcheck_required cfgW pkgW = true ∧
    envW1.set_root_dir_ok = true ∧
    envW1.verify_rc ≠ RpmRc.RPMRC_OK ∧
    (∃ line ∈ envW1.verify_logs,
      pkgW.package_path.isPrefixOf line = false ∧ containsSub sBAD line = true) ∧
    (check_package_signature cfgW envW1 pkgW 0).result = Except.ok CheckResult.FAILED :=
  ⟨by decide, by decide, by decide, by decide,
   claim_C1_bad_overrides cfgW envW1 pkgW 0 (by decide) (by decide) (by decide)
     (by decide)⟩

/-- C2: when the engine reports non-success and no non-header line contains
`": BAD"`: a non-header line ending with none of the four recognized suffixes
forces `FAILED`; otherwise the result follows the precedence `NOTTRUSTED` over
`NOKEY` over `NOTFOUND`, with `FAILED` when no negative finding was flagged
(lines 144-172). -/
theorem claim_C2_suffix_classification (cfg : ConfigMain) (env : RpmEnv)
    (pkg : Package) (mask0 : Nat) (hreq : gpgcheck_required cfg pkg = true)
    (hts : env.set_root_dir_ok = true) (hrc : env.verify_rc ≠ RpmRc.RPMRC_OK)
    (hnobad : ∀ line ∈ env.verify_logs,
      pkg.package_path.isPrefixOf line = false → containsSub sBAD line = false) :
    ((∃ line ∈ env.verify_logs, pkg.package_path.isPrefixOf line = false ∧
        sNOKEY.isSuffixOf line = false ∧ sNOTTRUSTED.isSuffixOf line = false ∧
        sNOTFOUND.isSuffixOf line = false ∧ sOK.isSuffixOf line = false) →
      (check_package_signature cfg env pkg mask0).result =
        Except.ok CheckResult.FAILED) ∧
    ((∀ line ∈ env.verify_logs, pkg.package_path.isPrefixOf line = false →
        (sNOKEY.isSuffixOf line || sNOTTRUSTED.isSuffixOf line ||
         sNOTFOUND.isSuffixOf line || sOK.isSuffixOf line) = true) →
      (check_package_signature cfg env pkg mask0).result = Except.ok
        (if flag_nottrusted pkg.package_path env.verify_logs then
          CheckResult.FAILED_NOT_TRUSTED
         else if flag_nokey pkg.package_path env.verify_logs then
          CheckResult.FAILED_KEY_MISSING
         else if flag_notfound pkg.package_path env.verify_logs then
          CheckResult.FAILED_NOT_SIGNED
         else CheckResult.FAILED)) := by
  constructor
  · intro hunrec
    rw [check_package_signature_of_required cfg env pkg mask0 hreq,
      check_required_result_classify cfg env pkg mask0 hts hrc,
      classify_loop_of_unrecognized pkg.package_path env.verify_logs
        false false false hunrec]
  · intro hrecog
    rw [check_package_signature_of_required cfg env pkg mask0 hreq,
      check_required_result_classify cfg env pkg mask0 hts hrc,
      classify_loop_recognized pkg.package_path env.verify_logs
        false false false hnobad hrecog]
    simp

/-- Engine run for the C2 witness: both `NOTTRUSTED` and `NOKEY` present, no
`BAD`: the precedence must pick `FAILED_NOT_TRUSTED`. -/
def envW2 : RpmEnv :=
  { set_root_dir_ok := true, verify_rc := RpmRc.RPMRC_FAIL,
    verify_logs := ["/p.rpm:".toList, "a: NOKEY".toList, "b: NOTTRUSTED".toList,
                    "c: OK".toList] }

theorem claim_C2_witness :
    gpgcheck_required cfgW pkgW = true ∧
    envW2.set_root_dir_ok = true ∧
    envW2.verify_rc ≠ RpmRc.RPMRC_OK ∧
    (∀ line ∈ envW2.verify_logs,
      pkgW.package_path.isPrefixOf line = false → containsSub sBAD line = false) ∧
    (check_package_signature cfgW envW2 pkgW 0).result =
      Except.ok CheckResult.FAILED_NOT_TRUSTED := by
  refine ⟨by decide, by decide, by decide, by decide, ?_⟩
  have h := (claim_C2_suffix_classification cfgW envW2 pkgW 0 (by decide) (by decide)
    (by decide) (by decide)).2 (by decide)
  rw [h]
  rfl

/-- C3: for every package whose check is required, if the engine's verify call
returns `RPMRC_OK` then `check_package_signature` returns `OK` (lines 128-130),
and the whole outcome is invariant under changing the captured log lines. -/
theorem claim_C3_engine_success_ok (cfg : ConfigMain) (env : RpmEnv) (pkg : Package)
    (mask0 : Nat) (hreq : gpgcheck_required cfg pkg = true)
    (hts : env.set_root_dir_ok = true) (hrc : env.verify_rc = RpmRc.RPMRC_OK) :
    (check_package_signature cfg env pkg mask0).result = Except.ok CheckResult.OK ∧
    ∀ logs : List (List Char),
      check_package_signature cfg { env with verify_logs := logs } pkg mask0 =
        check_package_signature cfg env pkg mask0 := by
  have h1 : ∀ e : RpmEnv, e.set_root_dir_ok = true → e.verify_rc = RpmRc.RPMRC_OK →
      check_required cfg e pkg mask0 =
        { result := Except.ok CheckResult.OK, log_mask := mask0,
          events := [RpmEvent.create_transaction, RpmEvent.set_vfy_level,
                     RpmEvent.verify pkg.package_path] } := by
    intro e he hrc'
    unfold check_required create_transaction
    simp [he, hrc', rpmlogSetMask]
  constructor
  · rw [check_package_signature_of_required cfg env pkg mask0 hreq, h1 env hts hrc]
  · intro logs
    rw [check_package_signature_of_required cfg env pkg mask0 hreq,
      check_package_signature_of_required cfg { env with verify_logs := logs }
        pkg mask0 hreq, h1 env hts hrc, h1 { env with verify_logs := logs } hts hrc]

/-- Engine run for the C3 witness: success code with nonsense captured lines. -/
def envW3 : RpmEnv :=
  { set_root_dir_ok := true, verify_rc := RpmRc.RPMRC_OK,
    verify_logs := ["garbage: BAD".toList] }

theorem claim_C3_witness :
    gpgcheck_required cfgW pkgW = true ∧
    envW3.set_root_dir_ok = true ∧
    envW3.verify_rc = RpmRc.RPMRC_OK ∧
    (check_package_signature cfgW envW3 pkgW 0).result = Except.ok CheckResult.OK ∧
    check_package_signature cfgW { envW3 with verify_logs := [] } pkgW 0 =
      check_package_signature cfgW envW3 pkgW 0 := by
  have h := claim_C3_engine_success_ok cfgW envW3 pkgW 0 (by decide) (by decide) rfl
  exact ⟨by decide, by decide, rfl, h.1, h.2 []⟩

/-- C4: the gate of lines 94-105.  A command-line package with
`localpkg_gpgcheck` off, or a repository package with its repo's `gpgcheck` off,
yields `OK` with no transaction created and no verify call; in every other case
(once the session can be configured) the engine's verify entry point is invoked. -/
theorem claim_C4_policy_gate (cfg : ConfigMain) (env : RpmEnv) (pkg : Package)
    (mask0 : Nat) :
    (((pkg.repo.rtype = RepoType.COMMANDLINE ∧ cfg.localpkg_gpgcheck = false) ∨
      (pkg.repo.rtype ≠ RepoType.COMMANDLINE ∧ pkg.repo.config.gpgcheck = false)) →
      check_package_signature cfg env pkg mask0 =
        { result := Except.ok CheckResult.OK, log_mask := mask0, events := [] }) ∧
    (¬ ((pkg.repo.rtype = RepoType.COMMANDLINE ∧ cfg.localpkg_gpgcheck = false) ∨
        (pkg.repo.rtype ≠ RepoType.COMMANDLINE ∧ pkg.repo.config.gpgcheck = false)) →
      env.set_root_dir_ok = true →
      RpmEvent.verify pkg.package_path ∈
        (check_package_signature cfg env pkg mask0).events) := by
  constructor
  · intro h
    rcases h with ⟨hcmd, hflag⟩ | ⟨hcmd, hflag⟩
    · unfold check_package_signature
      simp [hcmd, hflag]
    · unfold check_package_signature
      simp [hcmd, hflag]
  · intro h hts
    have hreq : gpgcheck_required cfg pkg = true := by
      unfold gpgcheck_required
      by_cases hcmd : pkg.repo.rtype = RepoType.COMMANDLINE
      · rw [if_pos hcmd]
        cases hl : cfg.localpkg_gpgcheck
        · exact absurd (Or.inl ⟨hcmd, hl⟩) h
        · rfl
      · rw [if_neg hcmd]
        cases hg : pkg.repo.config.gpgcheck
        · exact absurd (Or.inr ⟨hcmd, hg⟩) h
        · rfl
    rw [check_package_signature_of_required cfg env pkg mask0 hreq]
    unfold check_required create_transaction
    by_cases hrc : env.verify_rc = RpmRc.RPMRC_OK <;> simp [hts, hrc]

/-- Command-line package with `localpkg_gpgcheck` off, for the C4 witness. -/
def pkgW4 : Package :=
  { repo := { rtype := RepoType.COMMANDLINE, config := { gpgcheck := true } },
    package_path := "/p.rpm".toList }

/-- Configuration with `localpkg_gpgcheck` off, for the C4 witness. -/
def cfgW4 : ConfigMain := { localpkg_gpgcheck := false, installroot := "/".toList }

theorem claim_C4_witness :
    (check_package_signature cfgW4 envW1 pkgW4 0 =
      { result := Except.ok CheckResult.OK, log_mask := 0, events := [] }) ∧
    RpmEvent.verify pkgW.package_path ∈
      (check_package_signature cfgW envW1 pkgW 0).events := by
  constructor
  · exact (claim_C4_policy_gate cfgW4 envW1 pkgW4 0).1 (Or.inl ⟨rfl, rfl⟩)
  · exact (claim_C4_policy_gate cfgW envW1 pkgW 0).2 (by decide) rfl

/-- C5: on every exit path of `check_package_signature` — gate short-circuit,
`SignatureCheckError` from `create_transaction`, engine success, and every
classification — the global rpm log mask ends equal to the mask from before the
call: the elevation of line 119 is always undone by line 126. -/
theorem claim_C5_log_mask_restored (cfg : ConfigMain) (env : RpmEnv) (pkg : Package)
    (mask0 : Nat) :
    (check_package_signature cfg env pkg mask0).log_mask = mask0 := by
  unfold check_package_signature
  split_ifs <;> first | rfl | exact check_required_mask cfg env pkg mask0

lemma lookup_loop_iff (key_id : List Char) (db : List RpmHeader) :
    lookup_loop key_id db = true ↔ ∃ h ∈ db, h.version = key_id := by
  induction db with
  | nil => simp [lookup_loop]
  | cons h rest ih =>
    by_cases hv : h.version = key_id
    · simp [lookup_loop, hv]
    · have hb : (h.version == key_id) = false := beq_eq_false_iff_ne.mpr hv
      simp [lookup_loop, hb, ih, hv]

lemma rpmdb_lookup_iff (db : List RpmHeader) (key : KeyInfo) :
    rpmdb_lookup db key = true ↔
      ∃ h ∈ db, h.name = sGpgPubkey ∧ h.version = get_short_key_id key := by
  unfold rpmdb_lookup rpmts_init_iterator
  rw [lookup_loop_iff]
  constructor
  · rintro ⟨h, hmem, hv⟩
    rw [List.mem_filter] at hmem
    exact ⟨h, hmem.1, by simpa using hmem.2, hv⟩
  · rintro ⟨h, hmem, hname, hv⟩
    exact ⟨h, List.mem_filter.mpr ⟨hmem, by simp [hname]⟩, hv⟩

/-- C7: with a configurable session, `key_present` returns true exactly when some
rpmdb header of name `gpg-pubkey` has its version equal to the key's short key
id (first match stops the loop, exhaustion gives false), and in particular
returns false on an empty database.  The lookup only reads the database: it is a
pure function of it. -/
theorem claim_C7_key_present_iff (cfg : ConfigMain) (db : List RpmHeader)
    (key : KeyInfo) :
    (key_present cfg true db key = Except.ok true ↔
      ∃ h ∈ db, h.name = sGpgPubkey ∧ h.version = get_short_key_id key) ∧
    key_present cfg true ([] : List RpmHeader) key = Except.ok false := by
  constructor
  · have hkp : key_present cfg true db key = Except.ok (rpmdb_lookup db key) := rfl
    rw [hkp]
    simp only [Except.ok.injEq]
    exact rpmdb_lookup_iff db key
  · rfl

/-- C6: with a configurable session, a key whose short id already matches a
`gpg-pubkey` record is not imported (no `rpmtsImportPubkey` call, result false);
a key with no matching record triggers exactly one `rpmtsImportPubkey` call with
the key's packet bytes and length, returning true when the engine accepts and
throwing `KeyImportError` carrying the key's source url when it rejects
(lines 197-208). -/
theorem claim_C6_import_key (cfg : ConfigMain) (import_ok : Bool)
    (db : List RpmHeader) (key : KeyInfo) :
    ((∃ h ∈ db, h.name = sGpgPubkey ∧ h.version = get_short_key_id key) →
      import_key cfg true import_ok db key =
        { result := Except.ok false, import_calls := [] }) ∧
    (¬ (∃ h ∈ db, h.name = sGpgPubkey ∧ h.version = get_short_key_id key) →
      (import_key cfg true import_ok db key).import_calls =
        [(key.pkt, key.pkt_len)] ∧
      (import_ok = true →
        (import_key cfg true import_ok db key).result = Except.ok true) ∧
      (import_ok = false →
        (import_key cfg true import_ok db key).result =
          Except.error (DnfError.KeyImportError key.key_url))) := by
  constructor
  · intro h
    have hl : rpmdb_lookup db key = true := (rpmdb_lookup_iff db key).2 h
    unfold import_key create_transaction
    simp [hl]
  · intro h
    have hl : rpmdb_lookup db key = false := by
      cases hx : rpmdb_lookup db key
      · rfl
      · exact absurd ((rpmdb_lookup_iff db key).1 hx) h
    unfold import_key create_transaction
    cases import_ok <;> simp [hl]

/-- A concrete key whose short id is the last 8 characters of its 16-character id. -/
def keyW : KeyInfo :=
  { key_url := "https://k".toList, key_path := "/tmp/k".toList,
    key_id := "0123456789abcdef".toList, user_id := "u".toList,
    fingerprint := "f".toList, pkt := [1, 2, 3], pkt_len := 3 }

/-- A one-record trust database already containing `keyW`'s short id. -/
def dbTrusted : List RpmHeader :=
  [{ name := "gpg-pubkey".toList, version := "89abcdef".toList }]

theorem claim_C6_witness :
    (∃ h ∈ dbTrusted, h.name = sGpgPubkey ∧ h.version = get_short_key_id keyW) ∧
    import_key cfgW true true dbTrusted keyW =
      { result := Except.ok false, import_calls := [] } ∧
    (¬ ∃ h ∈ ([] : List RpmHeader),
        h.name = sGpgPubkey ∧ h.version = get_short_key_id keyW) ∧
    (import_key cfgW true true [] keyW).import_calls = [(keyW.pkt, keyW.pkt_len)] ∧
    (import_key cfgW true true [] keyW).result = Except.ok true := by
  refine ⟨by decide, ?_, by decide, ?_, ?_⟩
  · exact (claim_C6_import_key cfgW true dbTrusted keyW).1 (by decide)
  · exact ((claim_C6_import_key cfgW true [] keyW).2 (by decide)).1
  · exact ((claim_C6_import_key cfgW true [] keyW).2 (by decide)).2.1 rfl

lemma read_key_phase_eq (envk : KeyEnv) (key_url key_path : List Char)
    (has_temp : Bool) (tpath : List Char) (evs0 : List KEvent)
    (hopen : envk.file_open_ok = true) :
    read_key_phase envk key_url key_path has_temp tpath evs0 =
      (if envk.pgp_armor = PgpArmor.PGPARMOR_PUBKEY then
        Except.ok
          { key_url := key_url, key_path := key_path,
            key_id := (fold_ids envk.rawkey_infos).1,
            user_id := (fold_ids envk.rawkey_infos).2.1,
            fingerprint := (fold_ids envk.rawkey_infos).2.2,
            pkt := envk.pgp_pkt, pkt_len := envk.pgp_pkt.length }
       else Except.error (DnfError.KeyImportError key_url),
       scope_exit has_temp tpath (evs0 ++ [KEvent.file_open key_path])) := by
  unfold read_key_phase
  by_cases h : envk.pgp_armor = PgpArmor.PGPARMOR_PUBKEY <;> simp [hopen, h]

lemma mkKeyInfo_cases (envk : KeyEnv) (key_url : List Char)
    (hdl : envk.is_url = true → sFileScheme.isPrefixOf key_url = false →
      envk.download_ok = true) :
    ∃ kp ht evs0,
      mkKeyInfo envk key_url = read_key_phase envk key_url kp ht envk.temp_path evs0 := by
  unfold mkKeyInfo
  by_cases h1 : envk.is_url = true
  · by_cases h2 : sFileScheme.isPrefixOf key_url = true
    · exact ⟨key_url.drop 7, false, [], by simp [h1, h2]⟩
    · have h2' : sFileScheme.isPrefixOf key_url = false := by
        cases hx : sFileScheme.isPrefixOf key_url
        · rfl
        · exact absurd hx h2
      have h3 := hdl h1 h2'
      exact ⟨envk.temp_path, true,
        [KEvent.temp_create envk.temp_path, KEvent.download key_url],
        by simp [h1, h2', h3]⟩
  · have h1' : envk.is_url = false := by
      cases hx : envk.is_url
      · rfl
      · exact absurd hx h1
    exact ⟨key_url, false, [], by simp [h1']⟩

/-- C8: whenever the reference resolves (the download, if any, succeeds and the
resolved file opens), construction throws `KeyImportError` carrying the original
reference exactly when `pgpReadPkts` does not classify the content as a single
armored public key; on success the stored packet is the one `pgpReadPkts`
produced, which is non-empty by the parser's contract for a valid armored
public key (taken as the hypothesis `hpkt`).  Lines 63-76. -/
theorem claim_C8_armor_gate (envk : KeyEnv) (key_url : List Char)
    (hdl : envk.is_url = true → sFileScheme.isPrefixOf key_url = false →
      envk.download_ok = true)
    (hopen : envk.file_open_ok = true)
    (hpkt : envk.pgp_armor = PgpArmor.PGPARMOR_PUBKEY → envk.pgp_pkt ≠ []) :
    ((mkKeyInfo envk key_url).1 = Except.error (DnfError.KeyImportError key_url) ↔
      envk.pgp_armor ≠ PgpArmor.PGPARMOR_PUBKEY) ∧
    (∀ k, (mkKeyInfo envk key_url).1 = Except.ok k →
      k.pkt = envk.pgp_pkt ∧ k.pkt ≠ []) := by
  obtain ⟨kp, ht, evs0, hmk⟩ := mkKeyInfo_cases envk key_url hdl
  rw [hmk, read_key_phase_eq envk key_url kp ht envk.temp_path evs0 hopen]
  by_cases h : envk.pgp_armor = PgpArmor.PGPARMOR_PUBKEY
  · constructor
    · simp [h]
    · intro k hk
      simp only [h, if_pos rfl] at hk
      have hpk : k.pkt = envk.pgp_pkt := by
        cases hk
        rfl
      exact ⟨hpk, by rw [hpk]; exact hpkt h⟩
  · constructor
    · simp [h]
    · intro k hk
      simp [h] at hk

/-- Concrete local-path environment whose file parses as an armored public key. -/
def kenvW8 : KeyEnv :=
  { is_url := false, temp_path := "/tmp/rpmkey0".toList, download_ok := true,
    file_open_ok := true,
    rawkey_infos := [{ id := "0123456789abcdef".toList, user_id := "u".toList,
                       fingerprint := "f".toList }],
    pgp_armor := PgpArmor.PGPARMOR_PUBKEY, pgp_pkt := [9] }

/-- The same environment but the file is not an armored public key. -/
def kenvW8b : KeyEnv := { kenvW8 with pgp_armor := PgpArmor.PGPARMOR_NONE }

/-- The reference string used by the C8 witness. -/
def urlW8 : List Char := "/home/user/key.asc".toList

/-- The `KeyInfo` that `kenvW8` construction yields. -/
def kinfoW8 : KeyInfo :=
  { key_url := urlW8, key_path := urlW8, key_id := "0123456789abcdef".toList,
    user_id := "u".toList, fingerprint := "f".toList, pkt := [9], pkt_len := 1 }

theorem claim_C8_witness :
    kenvW8.file_open_ok = true ∧
    (mkKeyInfo kenvW8b urlW8).1 = Except.error (DnfError.KeyImportError urlW8) ∧
    ((mkKeyInfo kenvW8 urlW8).1 = Except.error (DnfError.KeyImportError urlW8) ↔
      kenvW8.pgp_armor ≠ PgpArmor.PGPARMOR_PUBKEY) ∧
    (mkKeyInfo kenvW8 urlW8).1 = Except.ok kinfoW8 ∧
    kinfoW8.pkt = kenvW8.pgp_pkt ∧ kinfoW8.pkt ≠ [] := by
  refine ⟨rfl, ?_, ?_, rfl, ?_⟩
  · exact (claim_C8_armor_gate kenvW8b urlW8 (by decide) rfl (by decide)).1.2
      (by decide)
  · exact (claim_C8_armor_gate kenvW8 urlW8 (by decide) rfl (by decide)).1
  · exact (claim_C8_armor_gate kenvW8 urlW8 (by decide) rfl (by decide)).2
      kinfoW8 rfl

/-- Remote-URL environment for C9/C10: download and parse succeed, extractor
yields no triple. -/
def kenvW9 : KeyEnv :=
  { is_url := true, temp_path := "/tmp/rpmkey1".toList, download_ok := true,
    file_open_ok := true, rawkey_infos := [],
    pgp_armor := PgpArmor.PGPARMOR_PUBKEY, pgp_pkt := [9] }

/-- The remote reference string for C9/C10. -/
def urlW9 : List Char := "https://example.com/key.asc".toList

/-- The `KeyInfo` that `kenvW9` construction yields. -/
def kinfoW9 : KeyInfo :=
  { key_url := urlW9, key_path := kenvW9.temp_path, key_id := [], user_id := [],
    fingerprint := [], pkt := [9], pkt_len := 1 }

/-- C9 counterexample: for a remote URL whose construction succeeds, the
temporary file's deletion event is already part of the construction trace — the
constructor-local `downloaded_key` unique_ptr of line 47 dies at constructor
exit — and destroying the finished object deletes nothing, refuting deletion
at object destruction time. -/
theorem claim_C9_counterexample :
    (mkKeyInfo kenvW9 urlW9).1 = Except.ok kinfoW9 ∧
    KEvent.temp_delete kenvW9.temp_path ∈ (mkKeyInfo kenvW9 urlW9).2 ∧
    destroyKeyInfo kinfoW9 = [] := by
  refine ⟨rfl, ?_, rfl⟩
  decide

/-- C9 amended: for every remote (non-`file://`) URL reference, the temporary
download file lives exactly as long as the constructor runs: it is created
before the download and its deletion is the last resource event of construction
on every exit path — download failure, open failure, bad armor, and success —
and destroying the constructed object deletes no temp file. -/
theorem claim_C9_temp_scope (envk : KeyEnv) (key_url : List Char)
    (hurl : envk.is_url = true) (hfile : sFileScheme.isPrefixOf key_url = false) :
    KEvent.temp_create envk.temp_path ∈ (mkKeyInfo envk key_url).2 ∧
    (mkKeyInfo envk key_url).2.getLast? =
      some (KEvent.temp_delete envk.temp_path) ∧
    (∀ k, (mkKeyInfo envk key_url).1 = Except.ok k → destroyKeyInfo k = []) := by
  refine ⟨?_, ?_, fun k _ => rfl⟩ <;>
  · unfold mkKeyInfo read_key_phase scope_exit
    by_cases hd : envk.download_ok = true <;>
      by_cases ho : envk.file_open_ok = true <;>
        by_cases ha : envk.pgp_armor = PgpArmor.PGPARMOR_PUBKEY <;>
          simp [hurl, hfile, hd, ho, ha]

theorem claim_C9_witness :
    kenvW9.is_url = true ∧ sFileScheme.isPrefixOf urlW9 = false ∧
    KEvent.temp_create kenvW9.temp_path ∈ (mkKeyInfo kenvW9 urlW9).2 ∧
    (mkKeyInfo kenvW9 urlW9).2.getLast? =
      some (KEvent.temp_delete kenvW9.temp_path) ∧
    destroyKeyInfo kinfoW9 = [] :=
  ⟨rfl, by decide,
   (claim_C9_temp_scope kenvW9 urlW9 rfl (by decide)).1,
   (claim_C9_temp_scope kenvW9 urlW9 rfl (by decide)).2.1,
   (claim_C9_temp_scope kenvW9 urlW9 rfl (by decide)).2.2 kinfoW9 rfl⟩

/-- C10: when the extractor yields no identity triple but the file still reads
as an armored public key (and resolution succeeds), construction succeeds and
`key_id`, `user_id`, `fingerprint` keep their default empty values, so
`get_short_key_id` returns the empty string (lines 63-81). -/
theorem claim_C10_empty_identity (envk : KeyEnv) (key_url : List Char)
    (hdl : envk.is_url = true → sFileScheme.isPrefixOf key_url = false →
      envk.download_ok = true)
    (hopen : envk.file_open_ok = true)
    (hinfos : envk.rawkey_infos = [])
    (harmor : envk.pgp_armor = PgpArmor.PGPARMOR_PUBKEY) :
    ((mkKeyInfo envk key_url).1).isOk = true ∧
    (∀ k, (mkKeyInfo envk key_url).1 = Except.ok k →
      k.key_id = [] ∧ k.user_id = [] ∧ k.fingerprint = [] ∧
      get_short_key_id k = []) := by
  obtain ⟨kp, ht, evs0, hmk⟩ := mkKeyInfo_cases envk key_url hdl
  rw [hmk, read_key_phase_eq envk key_url kp ht envk.temp_path evs0 hopen]
  constructor
  · simp only [harmor, if_pos rfl]
    rfl
  · intro k hk
    simp only [harmor, if_pos rfl] at hk
    cases hk
    refine ⟨by simp [hinfos, fold_ids], by simp [hinfos, fold_ids],
      by simp [hinfos, fold_ids], ?_⟩
    unfold get_short_key_id
    simp [hinfos, fold_ids]

theorem claim_C10_witness :
    kenvW9.file_open_ok = true ∧ kenvW9.rawkey_infos = [] ∧
    kenvW9.pgp_armor = PgpArmor.PGPARMOR_PUBKEY ∧
    ((mkKeyInfo kenvW9 urlW9).1).isOk = true ∧
    kinfoW9.key_id = [] ∧ kinfoW9.user_id = [] ∧ kinfoW9.fingerprint = [] ∧
    get_short_key_id kinfoW9 = [] := by
  refine ⟨rfl, rfl, rfl,
    (claim_C10_empty_identity kenvW9 urlW9 (by decide) rfl rfl rfl).1, ?_⟩
  exact (claim_C10_empty_identity kenvW9 urlW9 (by decide) rfl rfl rfl).2 kinfoW9 rfl

end LibdnfRpm
